import Mathlib

/-!
Verification of the TailorTalk calendar agent (`app/main.py`, `app/agent_state.py`,
`app/agent_tools.py`, `app/google_calendar.py`, `app/user_interface.py`).

Shallow embedding conventions:
* Python values that flow through tool results are modelled by `PyVal`
  (strings, lists and string-keyed dicts — the only shapes the tools produce).
* `pyStr` models Python `str()` on such values (`str(tool_output_list)` in
  `call_tool`); `literalEval` models `ast.literal_eval` on the corresponding
  grammar, returning `none` where Python raises `ValueError`/`SyntaxError`.
* The escape subset of `repr` covers backslash, single quote and newline; the
  strings that actually occur in this program contain none of these.
* Python exceptions are modelled with `Option`/`Except`; a `try/except` around a
  block is an explicit `match` on the fallible result.
* Machine integers do not occur; datetimes are exact integer second counts.
-/

namespace TailorTalk

/-! ### Characters used when printing and parsing Python literals -/

def squote : Char := Char.ofNat 39

def dquote : Char := Char.ofNat 34

def bslash : Char := Char.ofNat 92

def lbrace : Char := Char.ofNat 123

def rbrace : Char := Char.ofNat 125

/-! ### The Python value universe of tool outputs -/

mutual

/-- Python values produced by the two tool adapters and stored in
`AgentState.tool_output`: strings, lists, and string-keyed dicts. -/
inductive PyVal : Type where
  | str : String → PyVal
  | list : PyList → PyVal
  | dict : PyDict → PyVal

/-- A Python list of `PyVal`s (own inductive so that all functions below are
structurally recursive and compute inside the kernel). -/
inductive PyList : Type where
  | nil : PyList
  | cons : PyVal → PyList → PyList

/-- A Python dict with string keys, in insertion order. -/
inductive PyDict : Type where
  | nil : PyDict
  | cons : String → PyVal → PyDict → PyDict

end

/-- Conversion from a Lean list, used where the source builds a Python list. -/
def PyList.ofList : List PyVal → PyList
  | [] => .nil
  | v :: rest => .cons v (PyList.ofList rest)

/-- Python `all(p(x) for x in l)`. -/
def PyList.allB (p : PyVal → Bool) : PyList → Bool
  | .nil => true
  | .cons v rest => p v && PyList.allB p rest

/-- Python dict lookup `d[key]` as an `Option` (first binding wins; the dicts
built by this program never repeat a key, so first-binding lookup coincides
with Python, where later duplicate keys would overwrite). -/
def PyDict.lookup : PyDict → String → Option PyVal
  | .nil, _ => none
  | .cons k v rest, key => if k = key then some v else PyDict.lookup rest key

/-- Python truthiness of the values in our universe: empty string, empty list
and empty dict are falsy. -/
def pyTruthy : PyVal → Bool
  | .str s => s ≠ ""
  | .list l => match l with | .nil => false | _ => true
  | .dict d => match d with | .nil => false | _ => true

/-- `d.get(key, dflt)` on a value statically known to be a dict. -/
def pyDictGetD (d : PyDict) (key : String) (dflt : PyVal) : PyVal :=
  (d.lookup key).getD dflt

/-- `v.get(key, dflt)` on an arbitrary value: Python raises `AttributeError`
when `v` is not a dict (e.g. `'x'.get(...)`), modelled as `Except.error`. -/
def pyGetAttrD : PyVal → String → PyVal → Except String PyVal
  | .dict d, key, dflt => .ok (pyDictGetD d key dflt)
  | .str _, _, _ => .error "AttributeError: str object has no attribute get"
  | .list _, _, _ => .error "AttributeError: list object has no attribute get"

/-! ### Python `str()` / `repr()` on the value universe -/

/-- The escape rules of `repr` for the characters this program can produce. -/
def escapeChars : List Char → List Char
  | [] => []
  | c :: cs =>
    if c = bslash then bslash :: bslash :: escapeChars cs
    else if c = squote then bslash :: squote :: escapeChars cs
    else if c = '\n' then bslash :: 'n' :: escapeChars cs
    else c :: escapeChars cs

/-- `repr` of a Python string (single-quoted). -/
def quoteRepr (s : String) : String :=
  String.mk (squote :: escapeChars s.data ++ [squote])

mutual

/-- Python `str()` (= `repr` for containers) on a `PyVal`; this is what
`str(tool_output_list)` applies elementwise in `call_tool`. -/
def pyStr : PyVal → String
  | .str s => quoteRepr s
  | .list l => "[" ++ pyStrList l ++ "]"
  | .dict d => String.mk [lbrace] ++ pyStrDict d ++ String.mk [rbrace]

/-- Comma-separated `repr`s of list elements. -/
def pyStrList : PyList → String
  | .nil => ""
  | .cons v .nil => pyStr v
  | .cons v rest => pyStr v ++ ", " ++ pyStrList rest

/-- Comma-separated `key: value` pairs of a dict. -/
def pyStrDict : PyDict → String
  | .nil => ""
  | .cons k v .nil => quoteRepr k ++ ": " ++ pyStr v
  | .cons k v rest => quoteRepr k ++ ": " ++ pyStr v ++ ", " ++ pyStrDict rest

end

/-- Python `str()` as used by f-string interpolation: a string interpolates as
itself, containers as their `repr`. -/
def pyToStr : PyVal → String
  | .str s => s
  | v => pyStr v

/-! ### `ast.literal_eval` on the printed grammar -/

/-- Skip blanks, as `ast.literal_eval` tolerates whitespace. -/
def skipWs : List Char → List Char
  | [] => []
  | c :: cs => if c = ' ' ∨ c = '\n' ∨ c = '\t' ∨ c = '\r' then skipWs cs else c :: cs

/-- Parse a quoted string body after the opening quote `q`, handling the escape
subset of `quoteRepr`; returns the string characters and the rest. -/
def parseStrBody (q : Char) : List Char → Option (List Char × List Char)
  | [] => none
  | c :: cs =>
    if c = q then some ([], cs)
    else if c = bslash then
      match cs with
      | [] => none
      | e :: cs2 =>
        match parseStrBody q cs2 with
        | some (s, r) => some ((if e = 'n' then '\n' else if e = 't' then '\t' else if e = 'r' then '\r' else e) :: s, r)
        | none => none
    else
      match parseStrBody q cs with
      | some (s, r) => some (c :: s, r)
      | none => none

/-- Recursive-descent parser for the literal grammar `str | list | dict`.
Fuel decreases on every recursive call; list and dict tails are parsed by
re-prepending the opening bracket, so a single structural recursion suffices.
`ast.literal_eval`-accepted forms outside this grammar (numbers, tuples, ...)
are never produced by `call_tool` and are not modelled. -/
def parseVal : Nat → List Char → Option (PyVal × List Char)
  | 0, _ => none
  | fuel+1, cs =>
    match skipWs cs with
    | [] => none
    | c :: rest =>
      if c = squote ∨ c = dquote then
        match parseStrBody c rest with
        | some (s, r) => some (.str (String.mk s), r)
        | none => none
      else if c = '[' then
        match skipWs rest with
        | [] => none
        | c2 :: r2 =>
          if c2 = ']' then some (.list .nil, r2)
          else
            match parseVal fuel (c2 :: r2) with
            | none => none
            | some (v, r3) =>
              match skipWs r3 with
              | [] => none
              | c4 :: r4 =>
                if c4 = ',' then
                  match parseVal fuel ('[' :: r4) with
                  | some (.list l, r5) => some (.list (.cons v l), r5)
                  | _ => none
                else if c4 = ']' then some (.list (.cons v .nil), r4)
                else none
      else if c = lbrace then
        match skipWs rest with
        | [] => none
        | c2 :: r2 =>
          if c2 = rbrace then some (.dict .nil, r2)
          else if c2 = squote ∨ c2 = dquote then
            match parseStrBody c2 r2 with
            | none => none
            | some (k, r3) =>
              match skipWs r3 with
              | [] => none
              | c4 :: r4 =>
                if c4 = ':' then
                  match parseVal fuel r4 with
                  | none => none
                  | some (v, r5) =>
                    match skipWs r5 with
                    | [] => none
                    | c6 :: r6 =>
                      if c6 = ',' then
                        match parseVal fuel (lbrace :: r6) with
                        | some (.dict d, r7) => some (.dict (.cons (String.mk k) v d), r7)
                        | _ => none
                      else if c6 = rbrace then some (.dict (.cons (String.mk k) v .nil), r6)
                      else none
                else none
          else none
      else none

/-- `ast.literal_eval`: `none` models a raised `ValueError`/`SyntaxError`. -/
def literalEval (s : String) : Option PyVal :=
  match parseVal (s.length + 2) s.data with
  | some (v, rest) => if skipWs rest = [] then some v else none
  | none => none

/-! ### Python `datetime` and `pytz`, restricted to what `agent_tools.py` uses

A datetime is a wall-clock reading (seconds since 1970-01-01T00:00:00 as shown
on that clock) plus an optional UTC offset in seconds (`none` = naive).
`pytz` is modelled by the slice of the IANA database this program touches:
`Asia/Kolkata` (fixed +05:30, no DST) and `UTC`; an unknown name models
`pytz.UnknownTimeZoneError`.  The system-local timezone that Python's
`datetime.astimezone` presumes for naive values is an explicit parameter
`sysOff` (its UTC offset in seconds).  Fractional seconds are not modelled:
the model emits whole-second strings only. -/

structure PyDatetime where
  wall : Int
  offset : Option Int
deriving DecidableEq, Repr

/-- Days from 1970-01-01 of the civil date `y-m-d` (proleptic Gregorian);
Lean's `Int` division is floor division for positive divisors, which this
computation relies on. -/
def daysFromCivil (y m d : Int) : Int :=
  let y1 := if m ≤ 2 then y - 1 else y
  let era := y1 / 400
  let yoe := y1 - era * 400
  let mp := (m + 9) % 12
  let doy := (153 * mp + 2) / 5 + d - 1
  let doe := yoe * 365 + yoe / 4 - yoe / 100 + doy
  era * 146097 + doe - 719468

/-- Inverse of `daysFromCivil`: the civil date of a day count. -/
def civilFromDays (z : Int) : Int × Int × Int :=
  let z1 := z + 719468
  let era := z1 / 146097
  let doe := z1 - era * 146097
  let yoe := (doe - doe / 1460 + doe / 36524 - doe / 146096) / 365
  let y := yoe + era * 400
  let doy := doe - (365 * yoe + yoe / 4 - yoe / 100)
  let mp := (5 * doy + 2) / 153
  let d := doy - (153 * mp + 2) / 5 + 1
  let m := if mp < 10 then mp + 3 else mp - 9
  (if m ≤ 2 then y + 1 else y, m, d)

/-- Gregorian leap-year rule. -/
def isLeap (y : Int) : Bool :=
  if y % 400 == 0 then true else if y % 100 == 0 then false else y % 4 == 0

/-- Length of month `m` of year `y`, for `fromisoformat` range validation. -/
def daysInMonth (y m : Int) : Int :=
  if m = 4 ∨ m = 6 ∨ m = 9 ∨ m = 11 then 30
  else if m = 2 then (if isLeap y then 29 else 28)
  else 31

/-- Value of an ASCII digit. -/
def digitVal (c : Char) : Option Nat :=
  if '0' ≤ c ∧ c ≤ '9' then some (c.toNat - 48) else none

/-- Two mandatory digits. -/
def parse2 : List Char → Option (Nat × List Char)
  | a :: b :: rest =>
    match digitVal a, digitVal b with
    | some x, some y => some (x * 10 + y, rest)
    | _, _ => none
  | _ => none

/-- Four mandatory digits (the year field). -/
def parse4 : List Char → Option (Nat × List Char)
  | a :: b :: c :: d :: rest =>
    match digitVal a, digitVal b, digitVal c, digitVal d with
    | some x1, some x2, some x3, some x4 => some (((x1 * 10 + x2) * 10 + x3) * 10 + x4, rest)
    | _, _, _, _ => none
  | _ => none

/-- `HH[:MM[:SS]]` as seconds of day, with `datetime`'s range checks. -/
def parseHMS (cs : List Char) : Option (Nat × List Char) :=
  match parse2 cs with
  | none => none
  | some (h, r1) =>
    if 24 ≤ h then none
    else
      match r1 with
      | ':' :: r2 =>
        match parse2 r2 with
        | none => none
        | some (mi, r3) =>
          if 60 ≤ mi then none
          else
            match r3 with
            | ':' :: r4 =>
              match parse2 r4 with
              | none => none
              | some (s, r5) => if 60 ≤ s then none else some (h * 3600 + mi * 60 + s, r5)
            | _ => some (h * 3600 + mi * 60, r3)
      | _ => some (h * 3600, r1)

/-- `HH:MM` of a UTC offset, as seconds. -/
def parseOffHM (cs : List Char) : Option (Int × List Char) :=
  match parse2 cs with
  | none => none
  | some (h, r1) =>
    if 24 ≤ h then none
    else
      match r1 with
      | ':' :: r2 =>
        match parse2 r2 with
        | none => none
        | some (mi, r3) => if 60 ≤ mi then none else some ((h * 3600 + mi * 60 : Nat), r3)
      | _ => none

/-- `datetime.datetime.fromisoformat` on the `YYYY-MM-DD[*HH[:MM[:SS]][±HH:MM]]`
forms this program exchanges (`none` models the raised `ValueError`).  As in
Python, the date/time separator may be any single character and an offset
suffix yields an aware value. -/
def pyFromisoformat (s : String) : Option PyDatetime :=
  match parse4 s.data with
  | none => none
  | some (y, r1) =>
    match r1 with
    | '-' :: r2 =>
      match parse2 r2 with
      | none => none
      | some (mo, r3) =>
        if mo < 1 ∨ 12 < mo then none
        else
          match r3 with
          | '-' :: r4 =>
            match parse2 r4 with
            | none => none
            | some (d, r5) =>
              if d < 1 ∨ daysInMonth y mo < (d : Int) then none
              else
                let daySec : Int := daysFromCivil y mo d * 86400
                match r5 with
                | [] => some ⟨daySec, none⟩
                | _sep :: r6 =>
                  match parseHMS r6 with
                  | none => none
                  | some (sod, r7) =>
                    match r7 with
                    | [] => some ⟨daySec + sod, none⟩
                    | sign :: r8 =>
                      if sign = '+' ∨ sign = '-' then
                        match parseOffHM r8 with
                        | none => none
                        | some (off, r9) =>
                          match r9 with
                          | [] => some ⟨daySec + sod, some (if sign = '-' then -off else off)⟩
                          | _ => none
                      else none
          | _ => none
    | _ => none

/-- `dt.astimezone(target)`: a naive value is presumed to be in the system
timezone (`sysOff`); the result is always aware in the target timezone. -/
def pyAstimezone (sysOff targetOff : Int) (dt : PyDatetime) : PyDatetime :=
  match dt.offset with
  | none => ⟨dt.wall - sysOff + targetOff, some targetOff⟩
  | some o => ⟨dt.wall - o + targetOff, some targetOff⟩

/-- `tz.localize(dt)`: attach the zone to a naive wall-clock reading without
shifting it. -/
def pyLocalize (tzOff : Int) (dt : PyDatetime) : PyDatetime :=
  ⟨dt.wall, some tzOff⟩

/-- `pytz.timezone`, restricted to the zones this program can name. -/
def tzOf (s : String) : Option Int :=
  if s = "Asia/Kolkata" then some 19800
  else if s = "UTC" then some 0
  else none

/-- The absolute (UTC) instant an aware datetime denotes; a naive value is
read at face value. -/
def pyAbsSeconds (dt : PyDatetime) : Int :=
  dt.wall - (dt.offset.getD 0)

/-! ### Printing datetimes (`datetime.isoformat`) -/

/-- Decimal digits of a `Nat` (fuel-structural so the kernel evaluates it). -/
def natDigitsAux : Nat → Nat → List Char
  | 0, _ => []
  | fuel + 1, n =>
    if n < 10 then [Char.ofNat (48 + n)]
    else natDigitsAux fuel (n / 10) ++ [Char.ofNat (48 + n % 10)]

/-- Decimal rendering of a `Nat`. -/
def natToStr (n : Nat) : String := String.mk (natDigitsAux (n + 1) n)

/-- Two-digit zero-padded field. -/
def pad2 (n : Nat) : String := if n < 10 then "0" ++ natToStr n else natToStr n

/-- Four-digit zero-padded year. -/
def pad4 (n : Nat) : String :=
  if n < 10 then "000" ++ natToStr n
  else if n < 100 then "00" ++ natToStr n
  else if n < 1000 then "0" ++ natToStr n
  else natToStr n

/-- `dt.isoformat()` (whole seconds; offsets are whole minutes throughout). -/
def pyIsoformat (dt : PyDatetime) : String :=
  let days := dt.wall / 86400
  let sod := (dt.wall % 86400).toNat
  match civilFromDays days with
  | (y, mo, d) =>
    let base := pad4 y.toNat ++ "-" ++ pad2 mo.toNat ++ "-" ++ pad2 d.toNat ++ "T"
      ++ pad2 (sod / 3600) ++ ":" ++ pad2 (sod % 3600 / 60) ++ ":" ++ pad2 (sod % 60)
    match dt.offset with
    | none => base
    | some off =>
      if 0 ≤ off then
        base ++ "+" ++ pad2 (off.toNat / 3600) ++ ":" ++ pad2 (off.toNat % 3600 / 60)
      else
        base ++ "-" ++ pad2 ((-off).toNat / 3600) ++ ":" ++ pad2 ((-off).toNat % 3600 / 60)

/-! ### `app/google_calendar.py`: the calendar client

The authenticated Google service object is external; it is modelled as a pair
of fallible remote operations.  `Except.error` models a raised
`googleapiclient.errors.HttpError`. -/

/-- The free/busy query body built in `check_calendar_availability`. -/
structure FreeBusyBody where
  timeMin : String
  timeMax : String
  items : List String
deriving DecidableEq, Repr

/-- One of the `'start'`/`'end'` sub-dicts of the event-insert payload. -/
structure EventTimePayload where
  dateTime : String
  timeZone : String
deriving DecidableEq, Repr

/-- The event payload built in `create_calendar_event`.  `startT`/`endT` are
the `'start'`/`'end'` keys; `remindersUseDefault` is
`'reminders': {'useDefault': True}`; `attendees` is present exactly when the
source's `if attendees:` guard added the key. -/
structure EventPayload where
  summary : String
  description : String
  startT : EventTimePayload
  endT : EventTimePayload
  remindersUseDefault : Bool
  attendees : Option (List String)
deriving DecidableEq, Repr

/-- The external Google Calendar service: `service.freebusy().query(body)` and
`service.events().insert(calendarId='primary', body, sendNotifications=True)`.
Responses are decoded JSON, i.e. values of our `PyVal` universe. -/
structure CalendarService where
  freebusyQuery : FreeBusyBody → Except String PyVal
  eventsInsert : EventPayload → Except String PyVal

/-- `google_calendar.check_calendar_availability`: query free/busy over
`[start_time, end_time]`; an `HttpError` is caught and yields `[]`, while an
`AttributeError` from the `.get` chain on a non-dict response propagates. -/
def check_calendar_availability (service : CalendarService)
    (start_time end_time : PyDatetime) : Except String PyVal :=
  let body : FreeBusyBody :=
    ⟨pyIsoformat start_time, pyIsoformat end_time, ["primary"]⟩
  match service.freebusyQuery body with
  | .error _ => .ok (.list .nil)
  | .ok events_result => do
    let cals ← pyGetAttrD events_result "calendars" (.dict .nil)
    let primary ← pyGetAttrD cals "primary" (.dict .nil)
    pyGetAttrD primary "busy" (.list .nil)

/-- The event dict literal built in `google_calendar.create_calendar_event`:
both `timeZone` fields are the constant `'Asia/Kolkata'`, independent of the
instants being inserted. -/
def buildEventPayload (summary description : String)
    (start_time end_time : PyDatetime) (attendees : Option (List String)) : EventPayload :=
  { summary := summary
    description := description
    startT := ⟨pyIsoformat start_time, "Asia/Kolkata"⟩
    endT := ⟨pyIsoformat end_time, "Asia/Kolkata"⟩
    remindersUseDefault := true
    attendees := match attendees with
      | some l => if l.isEmpty then none else some l
      | none => none }

/-- `google_calendar.create_calendar_event`: insert the payload; an
`HttpError` is caught and yields `None`. -/
def create_calendar_event (service : CalendarService) (summary description : String)
    (start_time end_time : PyDatetime) (attendees : Option (List String)) : Option PyVal :=
  match service.eventsInsert (buildEventPayload summary description start_time end_time attendees) with
  | .ok event => some event
  | .error _ => none

/-! ### `app/agent_tools.py`: the two tool adapters

Both adapters wrap their whole body in `try: ... except Exception: return
neutral`; every fallible sub-step is therefore an `Option`/`Except` whose
failure collapses to the neutral value. -/

/-- The per-argument datetime normalisation both adapters perform:
`datetime.fromisoformat(s).astimezone(target_tz)` followed by the
`if X.tzinfo is None: X = target_tz.localize(X)` guard (dead after
`astimezone`, which always returns an aware value). -/
def toolNormalizeDatetime (sysOff tzOff : Int) (s : String) : Option PyDatetime :=
  match pyFromisoformat s with
  | none => none
  | some dt =>
    let dt2 := pyAstimezone sysOff tzOff dt
    some (if dt2.offset = none then pyLocalize tzOff dt2 else dt2)

/-- `check_calendar_availability_tool`: parse/normalise the two datetime
strings in the requested zone and query free/busy; any exception
(`UnknownTimeZoneError`, `ValueError` from parsing, or anything raised
downstream) degrades to `[]`. -/
def check_calendar_availability_tool (service : CalendarService) (sysOff : Int)
    (start_time_str end_time_str timezone_str : String) : PyVal :=
  match tzOf timezone_str with
  | none => .list .nil
  | some tz =>
    match toolNormalizeDatetime sysOff tz start_time_str,
          toolNormalizeDatetime sysOff tz end_time_str with
    | some st, some en =>
      match check_calendar_availability service st en with
      | .ok busy_periods => busy_periods
      | .error _ => .list .nil
    | _, _ => .list .nil

/-- `create_calendar_event_tool`: parse/normalise and insert; the source's
`return event if event else {}` maps a falsy or `None` result to `{}`, and the
surrounding `except Exception` degrades every failure to `{}`. -/
def create_calendar_event_tool (service : CalendarService) (sysOff : Int)
    (summary description start_time_str end_time_str : String)
    (attendees : Option (List String)) (timezone_str : String) : PyVal :=
  match tzOf timezone_str with
  | none => .dict .nil
  | some tz =>
    match toolNormalizeDatetime sysOff tz start_time_str,
          toolNormalizeDatetime sysOff tz end_time_str with
    | some st, some en =>
      match create_calendar_event service summary description st en attendees with
      | some event => if pyTruthy event then event else .dict .nil
      | none => .dict .nil
    | _, _ => .dict .nil

/-! ### `app/main.py`: the LangGraph agent -/

/-- One tool call requested by the model inside an `AIMessage`:
`{"name": ..., "args": ...}` with JSON-decoded args. -/
structure ToolCall where
  name : String
  args : PyVal

/-- LangChain's binding of a string-typed tool argument (the binding layer is
the external `@tool` wrapper, not repository code): present string values are
passed through, the signature default is used otherwise.  A missing required
argument is bound to `""`, which no datetime parse accepts, so it degrades
inside the adapter exactly like any other malformed string. -/
def argStr (args : PyVal) (key dflt : String) : String :=
  match args with
  | .dict d =>
    match d.lookup key with
    | some (.str s) => s
    | _ => dflt
  | _ => dflt

/-- String elements of a Python list value. -/
def pyStrElems : PyList → List String
  | .nil => []
  | .cons (.str s) rest => s :: pyStrElems rest
  | .cons _ rest => pyStrElems rest

/-- Binding of the optional `attendees: Optional[List[str]] = None` argument. -/
def argAttendees (args : PyVal) : Option (List String) :=
  match args with
  | .dict d =>
    match d.lookup "attendees" with
    | some (.list l) => some (pyStrElems l)
    | _ => none
  | _ => none

/-- The dispatch ladder inside `call_tool`: exact name match against the two
known adapters, otherwise the synthesized error string. -/
def dispatchToolCall (service : CalendarService) (sysOff : Int) (tc : ToolCall) : PyVal :=
  if tc.name = "check_calendar_availability_tool" then
    check_calendar_availability_tool service sysOff
      (argStr tc.args "start_time_str" "") (argStr tc.args "end_time_str" "")
      (argStr tc.args "timezone_str" "Asia/Kolkata")
  else if tc.name = "create_calendar_event_tool" then
    create_calendar_event_tool service sysOff
      (argStr tc.args "summary" "") (argStr tc.args "description" "")
      (argStr tc.args "start_time_str" "") (argStr tc.args "end_time_str" "")
      (argAttendees tc.args) (argStr tc.args "timezone_str" "Asia/Kolkata")
  else
    .str ("Error: Unknown tool " ++ tc.name)

/-- A LangChain message: `HumanMessage` has role `"human"` and no tool calls,
the model's `AIMessage` may carry tool calls. -/
structure Message where
  role : String
  content : String
  tool_calls : List ToolCall

/-- `app/agent_state.py`: the `AgentState` TypedDict.  `messages` carries the
`x + y` append reducer; all other fields are plain scratch fields. -/
structure AgentState where
  messages : List Message
  current_plan : String
  calendar_query_start : String
  calendar_query_end : String
  event_summary : String
  event_description : String
  event_start_time : String
  event_end_time : String
  event_attendees : List String
  availability_results : List PyVal
  booking_status : String
  tool_output : String
  error_message : String

/-- A fresh session state before the first turn. -/
def emptyAgentState : AgentState :=
  ⟨[], "", "", "", "", "", "", "", [], [], "", "", ""⟩

/-- The `call_model` node: invoke the LLM on `state['messages']` and return
`{"messages": [response]}`, which the reducer appends.  The LLM itself is
external; its response for the turn is the parameter `response`. -/
def call_model_update (response : Message) (state : AgentState) : AgentState :=
  { state with messages := state.messages ++ [response] }

/-- The loop body of `call_tool`: start from `[]`; when
`last_message.tool_calls` is truthy, append one dispatched result per call in
emission order. -/
def callToolOutput (service : CalendarService) (sysOff : Int) (last_message : Message) : List PyVal :=
  if last_message.tool_calls.isEmpty then []
  else last_message.tool_calls.foldl (fun acc tc => acc ++ [dispatchToolCall service sysOff tc]) []

/-- The `call_tool` node: read `state['messages'][-1]` and store
`str(tool_output_list)` in `tool_output`.  The graph entry appends the user
message before any node runs, so the history is never empty here; the `none`
branch is the unreachable `IndexError`. -/
def call_tool_update (service : CalendarService) (sysOff : Int) (state : AgentState) : AgentState :=
  match state.messages.getLast? with
  | some last_message =>
    { state with
      tool_output := pyStr (.list (PyList.ofList (callToolOutput service sysOff last_message))) }
  | none => state

/-- LangGraph's `END` sentinel. -/
def ENDNode : String := "__end__"

/-- A `StateGraph` as wired in `main.py`: named nodes, directed edges, entry. -/
structure Workflow where
  nodes : List String
  edges : List (String × String)
  entry : String

/-- The compiled graph: `call_model → call_tool → END`, entry `call_model`. -/
def workflow : Workflow :=
  { nodes := ["call_model", "call_tool"]
    edges := [("call_model", "call_tool"), ("call_tool", ENDNode)]
    entry := "call_model" }

/-- Successor of a node along the (deterministic) edge list. -/
def nextNode (w : Workflow) (n : String) : Option String :=
  (w.edges.find? (fun e => e.1 == n)).map (fun e => e.2)

/-- Nodes executed from `n` until `END`, fuel-bounded. -/
def traceFrom (w : Workflow) : Nat → String → List String
  | 0, _ => []
  | fuel + 1, n =>
    if n = ENDNode then []
    else
      n :: (match nextNode w n with
        | some m => traceFrom w fuel m
        | none => [])

/-- The node sequence one `app_agent.invoke` executes. -/
def workflowTrace : List String := traceFrom workflow (workflow.nodes.length + 1) workflow.entry

/-- Interpretation of a node name as a state update. -/
def nodeUpdate (service : CalendarService) (sysOff : Int) (response : Message)
    (name : String) (state : AgentState) : AgentState :=
  if name = "call_model" then call_model_update response state
  else if name = "call_tool" then call_tool_update service sysOff state
  else state

/-- `app_agent.invoke({"messages": [HumanMessage(user)]})` for the session
state `prev`: merge the input through the `messages` reducer, then run the
graph's node trace. -/
def invokeAgent (service : CalendarService) (sysOff : Int) (prev : AgentState)
    (userMsg response : Message) : AgentState :=
  workflowTrace.foldl (fun st n => nodeUpdate service sysOff response n st)
    { prev with messages := prev.messages ++ [userMsg] }

/-! ### `chat_endpoint`: formatting tool output and total error handling -/

/-- `tool_data[0]`, reached only under the `isEventOutput` guard, which forces
a nonempty list (the fallback is never taken). -/
def pyIndex0 : PyVal → PyVal
  | .list (.cons first _) => first
  | _ => .dict .nil

/-- The list payload of a value, reached only under the `isBusyListOutput`
guard (the fallback is never taken). -/
def pyListOf : PyVal → PyList
  | .list l => l
  | _ => .nil

/-- Case-1 guard: `isinstance(tool_data, list) and len(tool_data) > 0 and
isinstance(tool_data[0], dict) and tool_data[0].get('kind') ==
'calendar#event'`. -/
def isEventOutput : PyVal → Bool
  | .list (.cons first _) =>
    match first with
    | .dict d =>
      match d.lookup "kind" with
      | some (.str s) => s = "calendar#event"
      | _ => false
    | _ => false
  | _ => false

/-- One conjunct of the case-2 guard: `isinstance(item, dict) and 'start' in
item and 'end' in item`. -/
def isBusySlotB : PyVal → Bool
  | .dict d => (d.lookup "start").isSome && (d.lookup "end").isSome
  | _ => false

/-- Case-2 guard: a list all of whose items are busy-slot dicts. -/
def isBusyListOutput : PyVal → Bool
  | .list items => items.allB isBusySlotB
  | _ => false

/-- The event-created template of `chat_endpoint`. -/
def fmtEventCreated (summary start_time end_time html_link : String) : String :=
  "\n\n**✅ Event Created Successfully!**\n" ++
  "- **Title:** " ++ summary ++ "\n" ++
  "- **Time:** " ++ start_time ++ " to " ++ end_time ++ "\n" ++
  "- **View Event:** [Click here](" ++ html_link ++ ")\n" ++
  "*(Please check your Google Calendar for full details and invites.)*"

/-- The busy-slots template. -/
def fmtBusySlots (lines : List String) : String :=
  "\n\n**🗓️ Calendar Availability:**\n" ++
  "The following slots are busy:\n" ++ String.intercalate "\n" lines

/-- The no-busy-slots template. -/
def fmtNoBusySlots : String :=
  "\n\n**✅ Calendar Availability:** You appear to be free during that period!"

/-- The raw fallback template for unrecognized tool output shapes. -/
def fmtRawToolOutput (tool_output_raw : String) : String :=
  "\n\n**⚙️ Raw Tool Output:**\n```json\n" ++ tool_output_raw ++ "\n```"

/-- The template used when `ast.literal_eval` fails. -/
def fmtParseError (tool_output_raw : String) : String :=
  "\n\n**⚠️ Tool Output Parsing Error:**\n```\n" ++ tool_output_raw ++ "\n```"

/-- One line of the busy-slot listing. -/
def busySlotLine (s e : String) : String :=
  "  - From `" ++ s ++ "` to `" ++ e ++ "`"

/-- The slot-formatting loop of case 2: `slot.get('start', 'N/A')` /
`slot.get('end', 'N/A')` per slot (attribute-style gets, though the case-2
guard already ensured every slot is a dict). -/
def busySlotLines : PyList → Except String (List String)
  | .nil => .ok []
  | .cons slot rest => do
    let s ← pyGetAttrD slot "start" (.str "N/A")
    let e ← pyGetAttrD slot "end" (.str "N/A")
    let others ← busySlotLines rest
    .ok (busySlotLine (pyToStr s) (pyToStr e) :: others)

/-- The enhanced tool-output formatting block of `chat_endpoint`.  A failed
`ast.literal_eval` is caught by the inner `except (ValueError, SyntaxError)`
and yields the parse-error template; an `AttributeError` raised by a `.get`
chain is *not* caught there and propagates (`Except.error`). -/
def chatFormatE (tool_output_raw : String) : Except String String :=
  match literalEval tool_output_raw with
  | none => .ok (fmtParseError tool_output_raw)
  | some tool_data =>
    if pyTruthy tool_data then
      if isEventOutput tool_data then do
        let event := pyIndex0 tool_data
        let summary ← pyGetAttrD event "summary" (.str "An event")
        let html_link ← pyGetAttrD event "htmlLink" (.str "#")
        let startObj ← pyGetAttrD event "start" (.dict .nil)
        let start_time ← pyGetAttrD startObj "dateTime" (.str "N/A")
        let endObj ← pyGetAttrD event "end" (.dict .nil)
        let end_time ← pyGetAttrD endObj "dateTime" (.str "N/A")
        .ok (fmtEventCreated (pyToStr summary) (pyToStr start_time) (pyToStr end_time) (pyToStr html_link))
      else if isBusyListOutput tool_data then
        if pyTruthy tool_data then do
          let lines ← busySlotLines (pyListOf tool_data)
          .ok (fmtBusySlots lines)
        else .ok fmtNoBusySlots
      else .ok (fmtRawToolOutput tool_output_raw)
    else .ok ""

/-- `chat_endpoint`: empty messages short-circuit; otherwise the whole turn
runs inside `try: ... except Exception as e: return apologetic reply`.
`agentResult` is the outcome of `app_agent.invoke` (`Except.error` models a
raised exception there, e.g. a model-invocation failure); a formatting
`AttributeError` is caught by the same outer handler. -/
def chatEndpoint (user_message : String) (agentResult : Except String AgentState) : String :=
  if user_message = "" then "Please provide a message."
  else
    match agentResult with
    | .error e => "Sorry, an internal error occurred: " ++ e
    | .ok final_state =>
      match final_state.messages.getLast? with
      | none => "Sorry, an internal error occurred: IndexError: list index out of range"
      | some agent_response_message =>
        match chatFormatE final_state.tool_output with
        | .error e => "Sorry, an internal error occurred: " ++ e
        | .ok formatted_tool_output =>
          if formatted_tool_output = "" then agent_response_message.content
          else agent_response_message.content ++ formatted_tool_output

/-- A whole `/chat` turn for a non-failing model invocation: run the graph on
the session state and format the reply. -/
def chatTurnReply (service : CalendarService) (sysOff : Int) (prev : AgentState)
    (userText : String) (response : Message) : String :=
  chatEndpoint userText (.ok (invokeAgent service sysOff prev ⟨"human", userText, []⟩ response))

/-! ### Concrete fixtures used by witnesses and counterexamples -/

/-- A calendar backend whose every remote call raises `HttpError`. -/
def svcHttpError : CalendarService :=
  ⟨fun _ => .error "HttpError 503", fun _ => .error "HttpError 503"⟩

/-- A calendar backend reporting no conflicts: the free/busy response carries
an empty `busy` list for the primary calendar, as in the spec's "free period"
scenario. -/
def svcNoConflicts : CalendarService :=
  ⟨fun _ => .ok (.dict (.cons "calendars"
      (.dict (.cons "primary" (.dict (.cons "busy" (.list .nil) .nil)) .nil)) .nil)),
   fun _ => .ok (.dict .nil)⟩

/-- Arguments of an availability check for 2025-06-25, 10:00-11:00 IST. -/
def availArgs : PyVal :=
  .dict (.cons "start_time_str" (.str "2025-06-25T10:00:00")
    (.cons "end_time_str" (.str "2025-06-25T11:00:00")
      (.cons "timezone_str" (.str "Asia/Kolkata") .nil)))

/-- A model response requesting exactly that availability check. -/
def respFreeCheck : Message :=
  ⟨"ai", "Let me check.", [⟨"check_calendar_availability_tool", availArgs⟩]⟩

/-- A final state whose stored tool output is an event dict whose `'start'`
value is a plain string: formatting it raises an `AttributeError`. -/
def badEventOutputState : AgentState :=
  { emptyAgentState with
      messages := [⟨"ai", "x", []⟩]
      tool_output := pyStr (.list (.cons (.dict (.cons "kind" (.str "calendar#event")
        (.cons "start" (.str "x") .nil))) .nil)) }

/-! ### Helper lemmas -/

/-- The append-accumulating `foldl` of `call_tool`'s loop is a `map`. -/
theorem foldl_push_eq_map {α β : Type} (f : α → β) (l : List α) (acc : List β) :
    l.foldl (fun a x => a ++ [f x]) acc = acc ++ l.map f := by
  induction l generalizing acc with
  | nil => simp
  | cons x xs ih => simp [ih]

/-- `call_tool`'s loop produces one dispatched result per requested call, in
emission order. -/
theorem callToolOutput_eq_map (service : CalendarService) (sysOff : Int) (m : Message) :
    callToolOutput service sysOff m = m.tool_calls.map (dispatchToolCall service sysOff) := by
  cases h : m.tool_calls with
  | nil => simp [callToolOutput, h]
  | cons a l => simp [callToolOutput, h, foldl_push_eq_map]

/-- One `app_agent.invoke` is the two node updates in sequence; it appends
exactly the user message and the model response to the history and overwrites
`tool_output` with the stringified dispatch results for the response. -/
theorem invokeAgent_eq_record (service : CalendarService) (sysOff : Int)
    (prev : AgentState) (u r : Message) :
    invokeAgent service sysOff prev u r
      = { prev with
            messages := prev.messages ++ [u, r]
            tool_output := pyStr (.list (PyList.ofList (callToolOutput service sysOff r))) } := by
  have step : invokeAgent service sysOff prev u r
      = call_tool_update service sysOff
          (call_model_update r { prev with messages := prev.messages ++ [u] }) := rfl
  rw [step]
  simp [call_model_update, call_tool_update, List.getLast?_concat]

/-- The final history ends with the model response. -/
theorem invokeAgent_getLast (service : CalendarService) (sysOff : Int)
    (prev : AgentState) (u r : Message) :
    (invokeAgent service sysOff prev u r).messages.getLast? = some r := by
  rw [invokeAgent_eq_record]
  show (prev.messages ++ [u, r]).getLast? = some r
  have : prev.messages ++ [u, r] = (prev.messages ++ [u]) ++ [r] := by simp
  rw [this, List.getLast?_concat]

/-! ### The claims -/

/-- C1: for every turn in which the model's response contains tool-call
requests, the tool output stored in state is the stringified ordered sequence
with exactly one entry per request, the i-th entry being the dispatch of the
i-th request in emission order; slots are never dropped or reordered. -/
theorem call_tool_slot_correspondence (service : CalendarService) (sysOff : Int)
    (prev : AgentState) (u r : Message) :
    (invokeAgent service sysOff prev u r).tool_output
        = pyStr (.list (PyList.ofList (r.tool_calls.map (dispatchToolCall service sysOff))))
      ∧ (r.tool_calls.map (dispatchToolCall service sysOff)).length = r.tool_calls.length
      ∧ ∀ i : Nat, (r.tool_calls.map (dispatchToolCall service sysOff))[i]?
          = (r.tool_calls[i]?).map (dispatchToolCall service sysOff) := by
  refine ⟨?_, List.length_map _ _, fun i => List.getElem?_map _ _ _⟩
  rw [invokeAgent_eq_record, callToolOutput_eq_map]

/-- C8: the compiled graph runs `call_model` exactly once and then `call_tool`
exactly once before terminating; a turn is those two updates in sequence, so
an assistant message with tool calls is resolved into a stored tool-output
record within the same turn and the model is never re-invoked afterwards. -/
theorem workflow_single_pass :
    workflowTrace = ["call_model", "call_tool"]
    ∧ workflowTrace.count "call_model" = 1
    ∧ workflowTrace.count "call_tool" = 1
    ∧ ∀ (service : CalendarService) (sysOff : Int) (prev : AgentState) (u r : Message),
        invokeAgent service sysOff prev u r
            = call_tool_update service sysOff
                (call_model_update r { prev with messages := prev.messages ++ [u] })
          ∧ (invokeAgent service sysOff prev u r).tool_output
            = pyStr (.list (PyList.ofList (callToolOutput service sysOff r))) := by
  refine ⟨rfl, rfl, rfl, fun service sysOff prev u r => ⟨rfl, ?_⟩⟩
  rw [invokeAgent_eq_record]

/-- C9: the event payload sent to the calendar backend carries the constant
`timeZone` string `'Asia/Kolkata'` in both its start and end fields, for every
input; the instants affect only the `dateTime` strings. -/
theorem event_payload_fixed_timezone (summary description : String)
    (start_time end_time : PyDatetime) (attendees : Option (List String)) :
    (buildEventPayload summary description start_time end_time attendees).startT.timeZone
        = "Asia/Kolkata"
      ∧ (buildEventPayload summary description start_time end_time attendees).endT.timeZone
        = "Asia/Kolkata"
      ∧ (buildEventPayload summary description start_time end_time attendees).startT.dateTime
        = pyIsoformat start_time
      ∧ (buildEventPayload summary description start_time end_time attendees).endT.dateTime
        = pyIsoformat end_time :=
  ⟨rfl, rfl, rfl, rfl⟩

/-- C10: a turn appends exactly the user message and the model response to the
history, writes tool results only to the scratch `tool_output` field, and
leaves every other state field unchanged; so the message history a later model
invocation sees never contains earlier tool execution results. -/
theorem history_gains_exactly_two (service : CalendarService) (sysOff : Int)
    (prev : AgentState) (u r : Message) :
    (invokeAgent service sysOff prev u r).messages = prev.messages ++ [u, r]
      ∧ (invokeAgent service sysOff prev u r).tool_output
          = pyStr (.list (PyList.ofList (callToolOutput service sysOff r)))
      ∧ (invokeAgent service sysOff prev u r).current_plan = prev.current_plan
      ∧ (invokeAgent service sysOff prev u r).calendar_query_start = prev.calendar_query_start
      ∧ (invokeAgent service sysOff prev u r).calendar_query_end = prev.calendar_query_end
      ∧ (invokeAgent service sysOff prev u r).event_summary = prev.event_summary
      ∧ (invokeAgent service sysOff prev u r).event_description = prev.event_description
      ∧ (invokeAgent service sysOff prev u r).event_start_time = prev.event_start_time
      ∧ (invokeAgent service sysOff prev u r).event_end_time = prev.event_end_time
      ∧ (invokeAgent service sysOff prev u r).event_attendees = prev.event_attendees
      ∧ (invokeAgent service sysOff prev u r).availability_results = prev.availability_results
      ∧ (invokeAgent service sysOff prev u r).booking_status = prev.booking_status
      ∧ (invokeAgent service sysOff prev u r).error_message = prev.error_message := by
  rw [invokeAgent_eq_record]
  exact ⟨rfl, rfl, rfl, rfl, rfl, rfl, rfl, rfl, rfl, rfl, rfl, rfl, rfl⟩

/-- A failed datetime parse fails the whole per-argument normalisation. -/
theorem toolNormalizeDatetime_none (sysOff tzOff : Int) (s : String)
    (h : pyFromisoformat s = none) : toolNormalizeDatetime sysOff tzOff s = none := by
  unfold toolNormalizeDatetime
  rw [h]

/-- C2: for a turn in which the model requests zero tool calls, the stored
tool output is the (stringified) empty sequence and the `/chat` reply is the
model's text verbatim, with nothing appended. -/
theorem zero_tool_calls_reply_verbatim (service : CalendarService) (sysOff : Int)
    (prev : AgentState) (userText : String) (r : Message)
    (hmsg : userText ≠ "") (hcalls : r.tool_calls = []) :
    (invokeAgent service sysOff prev ⟨"human", userText, []⟩ r).tool_output = "[]"
      ∧ chatTurnReply service sysOff prev userText r = r.content := by
  have hto : (invokeAgent service sysOff prev ⟨"human", userText, []⟩ r).tool_output = "[]" := by
    rw [invokeAgent_eq_record]
    show pyStr (.list (PyList.ofList (callToolOutput service sysOff r))) = "[]"
    rw [callToolOutput_eq_map, hcalls]
    rfl
  have hlast := invokeAgent_getLast service sysOff prev ⟨"human", userText, []⟩ r
  have hfmt : chatFormatE "[]" = .ok "" := rfl
  refine ⟨hto, ?_⟩
  simp only [chatTurnReply, chatEndpoint, if_neg hmsg, hlast, hto, hfmt]
  simp

/-- C2 witness: a concrete turn with no tool calls. -/
theorem zero_tool_calls_reply_verbatim_witness :
    (invokeAgent svcHttpError 0 emptyAgentState ⟨"human", "hello", []⟩
        ⟨"ai", "Hi there!", []⟩).tool_output = "[]"
      ∧ chatTurnReply svcHttpError 0 emptyAgentState "hello" ⟨"ai", "Hi there!", []⟩
        = "Hi there!" :=
  zero_tool_calls_reply_verbatim svcHttpError 0 emptyAgentState "hello"
    ⟨"ai", "Hi there!", []⟩ (by decide) rfl

/-- C3: a tool call whose name matches neither known adapter is recorded as
the literal string `"Error: Unknown tool <name>"` in its slot, and (shown on a
concrete such turn) the turn still completes with a reply built from the
model's text. -/
theorem unknown_tool_error_slot (service : CalendarService) (sysOff : Int) (tc : ToolCall)
    (h1 : tc.name ≠ "check_calendar_availability_tool")
    (h2 : tc.name ≠ "create_calendar_event_tool") :
    dispatchToolCall service sysOff tc = .str ("Error: Unknown tool " ++ tc.name)
      ∧ chatTurnReply svcHttpError 0 emptyAgentState "do something"
            ⟨"ai", "Okay.", [⟨"get_weather_tool", .dict .nil⟩]⟩
          = "Okay." ++ fmtRawToolOutput
              (pyStr (.list (.cons (.str "Error: Unknown tool get_weather_tool") .nil))) := by
  refine ⟨?_, rfl⟩
  unfold dispatchToolCall
  rw [if_neg h1, if_neg h2]

/-- C3 witness: the unknown tool `get_weather_tool`. -/
theorem unknown_tool_error_slot_witness :
    dispatchToolCall svcHttpError 0 ⟨"get_weather_tool", .dict .nil⟩
        = .str ("Error: Unknown tool " ++ "get_weather_tool")
      ∧ chatTurnReply svcHttpError 0 emptyAgentState "do something"
            ⟨"ai", "Okay.", [⟨"get_weather_tool", .dict .nil⟩]⟩
          = "Okay." ++ fmtRawToolOutput
              (pyStr (.list (.cons (.str "Error: Unknown tool get_weather_tool") .nil))) :=
  unknown_tool_error_slot svcHttpError 0 ⟨"get_weather_tool", .dict .nil⟩
    (by decide) (by decide)

/-- C4: both tool adapters return their neutral value (empty list / empty
dict) instead of propagating, both when an input string fails to parse and
when every downstream calendar call raises. -/
theorem tool_adapters_degrade (service : CalendarService) (sysOff : Int)
    (s e tz summary desc : String) (att : Option (List String)) :
    ((tzOf tz = none ∨ pyFromisoformat s = none ∨ pyFromisoformat e = none) →
        check_calendar_availability_tool service sysOff s e tz = .list .nil
          ∧ create_calendar_event_tool service sysOff summary desc s e att tz = .dict .nil)
      ∧ ((∀ b, ∃ err, service.freebusyQuery b = .error err) →
          check_calendar_availability_tool service sysOff s e tz = .list .nil)
      ∧ ((∀ p, ∃ err, service.eventsInsert p = .error err) →
          create_calendar_event_tool service sysOff summary desc s e att tz = .dict .nil) := by
  refine ⟨fun h => ⟨?_, ?_⟩, fun hb => ?_, fun hp => ?_⟩
  · rcases h with h | h | h
    · simp [check_calendar_availability_tool, h]
    · cases htz : tzOf tz with
      | none => simp [check_calendar_availability_tool, htz]
      | some tzv =>
        simp [check_calendar_availability_tool, htz, toolNormalizeDatetime_none sysOff tzv s h]
    · cases htz : tzOf tz with
      | none => simp [check_calendar_availability_tool, htz]
      | some tzv =>
        cases hsx : toolNormalizeDatetime sysOff tzv s with
        | none => simp [check_calendar_availability_tool, htz, hsx]
        | some st =>
          simp [check_calendar_availability_tool, htz, hsx,
            toolNormalizeDatetime_none sysOff tzv e h]
  · rcases h with h | h | h
    · simp [create_calendar_event_tool, h]
    · cases htz : tzOf tz with
      | none => simp [create_calendar_event_tool, htz]
      | some tzv =>
        simp [create_calendar_event_tool, htz, toolNormalizeDatetime_none sysOff tzv s h]
    · cases htz : tzOf tz with
      | none => simp [create_calendar_event_tool, htz]
      | some tzv =>
        cases hsx : toolNormalizeDatetime sysOff tzv s with
        | none => simp [create_calendar_event_tool, htz, hsx]
        | some st =>
          simp [create_calendar_event_tool, htz, hsx,
            toolNormalizeDatetime_none sysOff tzv e h]
  · cases htz : tzOf tz with
    | none => simp [check_calendar_availability_tool, htz]
    | some tzv =>
      cases hsx : toolNormalizeDatetime sysOff tzv s with
      | none => simp [check_calendar_availability_tool, htz, hsx]
      | some st =>
        cases hse : toolNormalizeDatetime sysOff tzv e with
        | none => simp [check_calendar_availability_tool, htz, hsx, hse]
        | some en =>
          obtain ⟨err, herr⟩ := hb ⟨pyIsoformat st, pyIsoformat en, ["primary"]⟩
          have hok : check_calendar_availability service st en = .ok (.list .nil) := by
            simp only [check_calendar_availability]
            rw [herr]
          simp [check_calendar_availability_tool, htz, hsx, hse, hok]
  · cases htz : tzOf tz with
    | none => simp [create_calendar_event_tool, htz]
    | some tzv =>
      cases hsx : toolNormalizeDatetime sysOff tzv s with
      | none => simp [create_calendar_event_tool, htz, hsx]
      | some st =>
        cases hse : toolNormalizeDatetime sysOff tzv e with
        | none => simp [create_calendar_event_tool, htz, hsx, hse]
        | some en =>
          obtain ⟨err, herr⟩ := hp (buildEventPayload summary desc st en att)
          have hnone : create_calendar_event service summary desc st en att = none := by
            simp only [create_calendar_event]
            rw [herr]
          simp [create_calendar_event_tool, htz, hsx, hse, hnone]

/-- C4 witness: a malformed `start_time_str` and an always-failing backend. -/
theorem tool_adapters_degrade_witness :
    (check_calendar_availability_tool svcHttpError 0 "not-a-date" "2025-06-25T11:00:00"
          "Asia/Kolkata" = .list .nil
        ∧ create_calendar_event_tool svcHttpError 0 "Call" "details" "not-a-date"
            "2025-06-25T11:00:00" none "Asia/Kolkata" = .dict .nil)
      ∧ check_calendar_availability_tool svcHttpError 0 "2025-06-25T10:00:00"
          "2025-06-25T11:00:00" "Asia/Kolkata" = .list .nil
      ∧ create_calendar_event_tool svcHttpError 0 "Call" "details" "2025-06-25T10:00:00"
          "2025-06-25T11:00:00" none "Asia/Kolkata" = .dict .nil :=
  ⟨(tool_adapters_degrade svcHttpError 0 "not-a-date" "2025-06-25T11:00:00" "Asia/Kolkata"
      "Call" "details" none).1 (Or.inr (Or.inl rfl)),
   (tool_adapters_degrade svcHttpError 0 "2025-06-25T10:00:00" "2025-06-25T11:00:00"
      "Asia/Kolkata" "Call" "details" none).2.1 (fun _ => ⟨"HttpError 503", rfl⟩),
   (tool_adapters_degrade svcHttpError 0 "2025-06-25T10:00:00" "2025-06-25T11:00:00"
      "Asia/Kolkata" "Call" "details" none).2.2 (fun _ => ⟨"HttpError 503", rfl⟩)⟩

/-- C5, behaviour of the code at the spec's free-period scenario: the backend
reports no conflicts, the availability adapter returns `[]`, `call_tool` wraps
it into the turn-level list `[[]]`, and the boundary therefore renders the raw
fallback template — not the no-busy-slots template, and the reply nowhere
contains "You appear to be free". -/
theorem free_period_renders_raw_fallback :
    chatTurnReply svcNoConflicts 19800 emptyAgentState
          "Am I free tomorrow 10-11am IST?" respFreeCheck
        = "Let me check." ++ fmtRawToolOutput "[[]]"
      ∧ chatTurnReply svcNoConflicts 19800 emptyAgentState
            "Am I free tomorrow 10-11am IST?" respFreeCheck
          ≠ "Let me check." ++ fmtNoBusySlots
      ∧ ¬ List.IsInfix "You appear to be free".data
          (chatTurnReply svcNoConflicts 19800 emptyAgentState
            "Am I free tomorrow 10-11am IST?" respFreeCheck).data := by
  refine ⟨rfl, ?_, ?_⟩ <;> decide

/-- C6, behaviour of the code on a naive datetime string: `fromisoformat`
yields a naive value, and `astimezone` then interprets it in the *system*
timezone (here UTC, `sysOff = 0`) before converting to the requested
`Asia/Kolkata`; the resulting absolute instant (10:00 UTC) differs from the
instant the supplied-timezone interpretation (`localize`, 10:00 IST) would
give, though the backend does always receive an aware value. -/
theorem naive_datetime_uses_system_timezone :
    pyFromisoformat "2025-06-25T10:00:00" = some ⟨1750845600, none⟩
      ∧ toolNormalizeDatetime 0 19800 "2025-06-25T10:00:00" = some ⟨1750865400, some 19800⟩
      ∧ (toolNormalizeDatetime 0 19800 "2025-06-25T10:00:00").map pyAbsSeconds
          = some 1750845600
      ∧ (pyFromisoformat "2025-06-25T10:00:00").map (fun d => pyAbsSeconds (pyLocalize 19800 d))
          = some 1750825800
      ∧ (toolNormalizeDatetime 0 19800 "2025-06-25T10:00:00").map pyAbsSeconds
          ≠ (pyFromisoformat "2025-06-25T10:00:00").map
              (fun d => pyAbsSeconds (pyLocalize 19800 d)) := by
  refine ⟨rfl, rfl, rfl, rfl, ?_⟩
  decide

/-- C7: for a non-empty inbound message the chat endpoint is total — a failed
model invocation and a formatting `AttributeError` alike are converted into
the apologetic reply rather than propagated. -/
theorem chat_endpoint_never_raises (msg : String) (h : msg ≠ "") :
    (∀ e, chatEndpoint msg (.error e) = "Sorry, an internal error occurred: " ++ e)
      ∧ (∀ (st : AgentState) (m : Message) (e : String),
          st.messages.getLast? = some m → chatFormatE st.tool_output = .error e →
          chatEndpoint msg (.ok st) = "Sorry, an internal error occurred: " ++ e) := by
  constructor
  · intro e
    simp [chatEndpoint, h]
  · intro st m e hlast hfmt
    simp [chatEndpoint, h, hlast, hfmt]

/-- C7 witness: a failed model invocation, and a stored tool output whose
formatting raises an `AttributeError`. -/
theorem chat_endpoint_never_raises_witness :
    chatEndpoint "hi" (.error "model invocation failed")
        = "Sorry, an internal error occurred: " ++ "model invocation failed"
      ∧ chatEndpoint "hi" (.ok badEventOutputState)
        = "Sorry, an internal error occurred: "
            ++ "AttributeError: str object has no attribute get" :=
  ⟨(chat_endpoint_never_raises "hi" (by decide)).1 "model invocation failed",
   (chat_endpoint_never_raises "hi" (by decide)).2 badEventOutputState ⟨"ai", "x", []⟩
     "AttributeError: str object has no attribute get" rfl rfl⟩

end TailorTalk
